import Mathlib

/-!
Verification development for the `msal-cert` crate: acquisition of an OAuth2
access token via a certificate-bound JWT client assertion.

The two Rust source files (`src/lib.rs`, `src/token/mod.rs`) are shallowly
embedded below.  External collaborators (OpenSSL key/certificate parsing,
SHA-1, the RSA signing primitive of the `jwt` crate, the HTTP transport and
the `serde_json` response parser) are passed in as explicit oracle values in
an `Oracles` record; everything the repository itself computes (base64,
PEM normalization, JSON serialization of the header/payload structs, the
request assembly and the control flow of `acquire_token`) is modelled as
executable Lean functions.
-/

namespace MsalCert

/-- The standard base64 alphabet used by `BASE64_STANDARD` in the `base64` crate. -/
def b64Table : List Char :=
  "ABCDEFGHIJKLMNOPQRSTUVWXYZabcdefghijklmnopqrstuvwxyz0123456789+/".toList

/-- The URL-safe base64 alphabet (RFC 4648 §5), as the JWT compact
serialization conventionally requires for its segments. -/
def b64UrlTable : List Char :=
  "ABCDEFGHIJKLMNOPQRSTUVWXYZabcdefghijklmnopqrstuvwxyz0123456789-_".toList

/-- Character of the standard alphabet at a 6-bit index. -/
def b64Char (n : Nat) : Char := b64Table.getD n 'A'

/-- Character of the URL-safe alphabet at a 6-bit index. -/
def b64UrlChar (n : Nat) : Char := b64UrlTable.getD n 'A'

/-- `BASE64_STANDARD.encode`: RFC 4648 standard alphabet with `=` padding,
over a byte list. -/
def base64Encode : List Nat → List Char
  | [] => []
  | [a] => [b64Char (a / 4), b64Char (a % 4 * 16), '=', '=']
  | [a, b] => [b64Char (a / 4), b64Char (a % 4 * 16 + b / 16), b64Char (b % 16 * 4), '=']
  | a :: b :: c :: rest =>
      b64Char (a / 4) :: b64Char (a % 4 * 16 + b / 16) ::
      b64Char (b % 16 * 4 + c / 64) :: b64Char (c % 64) :: base64Encode rest

/-- Base64 encoding with the URL-safe alphabet and no padding, as the `jwt`
crate uses for the signature segment of the compact token. -/
def base64UrlEncode : List Nat → List Char
  | [] => []
  | [a] => [b64UrlChar (a / 4), b64UrlChar (a % 4 * 16)]
  | [a, b] => [b64UrlChar (a / 4), b64UrlChar (a % 4 * 16 + b / 16), b64UrlChar (b % 16 * 4)]
  | a :: b :: c :: rest =>
      b64UrlChar (a / 4) :: b64UrlChar (a % 4 * 16 + b / 16) ::
      b64UrlChar (b % 16 * 4 + c / 64) :: b64UrlChar (c % 64) :: base64UrlEncode rest

/-- Index of a character in the standard alphabet, if any. -/
def b64IndexAux (c : Char) : List Char → Nat → Option Nat
  | [], _ => none
  | x :: xs, i => if x = c then some i else b64IndexAux c xs (i + 1)

def b64Index (c : Char) : Option Nat := b64IndexAux c b64Table 0

/-- `BASE64_STANDARD.decode`: strict decoding, groups of four characters,
canonical `=` padding only in the final group, trailing bits must be zero. -/
def base64Decode : List Char → Option (List Nat)
  | [] => some []
  | [a, b, '=', '='] => do
      let x ← b64Index a
      let y ← b64Index b
      if y % 16 = 0 then some [x * 4 + y / 16] else none
  | [a, b, c, '='] => do
      let x ← b64Index a
      let y ← b64Index b
      let z ← b64Index c
      if z % 4 = 0 then some [x * 4 + y / 16, y % 16 * 16 + z / 4] else none
  | a :: b :: c :: d :: rest => do
      let x ← b64Index a
      let y ← b64Index b
      let z ← b64Index c
      let w ← b64Index d
      let r ← base64Decode rest
      some ([x * 4 + y / 16, y % 16 * 16 + z / 4, z % 4 * 64 + w] ++ r)
  | _ => none

/-- UTF-8 encoding of a single character, as a byte list. -/
def utf8EncodeChar (c : Char) : List Nat :=
  let n := c.toNat
  if n < 128 then [n]
  else if n < 2048 then [192 + n / 64, 128 + n % 64]
  else if n < 65536 then [224 + n / 4096, 128 + n / 64 % 64, 128 + n % 64]
  else [240 + n / 262144, 128 + n / 4096 % 64, 128 + n / 64 % 64, 128 + n % 64]

/-- UTF-8 encoding of a character list. -/
def utf8Chars : List Char → List Nat
  | [] => []
  | c :: cs => utf8EncodeChar c ++ utf8Chars cs

/-- `serde_json`'s escaping of a single character inside a JSON string:
`"` and `\` are escaped, control characters use the short escapes or
`\u00XX` with lowercase hex; everything else is passed through. -/
def jsonEscapeChar (c : Char) : List Char :=
  if c = '"' then ['\\', '"']
  else if c = '\\' then ['\\', '\\']
  else if c = '\x08' then ['\\', 'b']
  else if c = '\t' then ['\\', 't']
  else if c = '\n' then ['\\', 'n']
  else if c = '\x0c' then ['\\', 'f']
  else if c = '\r' then ['\\', 'r']
  else if c.toNat < 32 then
    ['\\', 'u', '0', '0', "0123456789abcdef".toList.getD (c.toNat / 16) '0',
     "0123456789abcdef".toList.getD (c.toNat % 16) '0']
  else [c]

/-- JSON serialization of a string value, double quotes included. -/
def jsonStringChars (s : String) : List Char :=
  '"' :: (jsonEscapeCharsAux s.toList ++ ['"'])
where
  jsonEscapeCharsAux : List Char → List Char
    | [] => []
    | c :: cs => jsonEscapeChar c ++ jsonEscapeCharsAux cs

/-- JSON serialization of the elements of a string array, comma separated. -/
def jsonStringListChars : List String → List Char
  | [] => []
  | [s] => jsonStringChars s
  | s :: rest => jsonStringChars s ++ ',' :: jsonStringListChars rest

/-- `aud` in `src/token/mod.rs`: the token-endpoint URL for a tenant. -/
def aud (tenant_id : String) : String :=
  "https://login.microsoftonline.com/" ++ tenant_id ++ "/oauth2/v2.0/token"

/-- The JWT header struct of `src/token/mod.rs` (fields in declaration order). -/
structure Header where
  x5t : String
  alg : String
  x5c : List String
  deriving Repr, DecidableEq

/-- The JWT payload struct of `src/token/mod.rs`. -/
structure Payload where
  iss : String
  aud : String
  sub : String
  nbf : Nat
  exp : Nat
  jti : String
  deriving Repr, DecidableEq

/-- The success-response struct of `src/token/mod.rs`. -/
structure AccessTokenResponse where
  token_type : String
  expires_in : Nat
  ext_expires_in : Nat
  access_token : String
  deriving Repr, DecidableEq

/-- Rust `str::replace`: replace every non-overlapping occurrence of a
non-empty pattern, scanning left to right, not re-scanning replacements.
Each step consumes at least one character, so running it with the input
length as fuel computes the full replacement; the fuel only makes the
recursion structural. -/
def replaceCharsFuel (pat rep : List Char) : Nat → List Char → List Char
  | _, [] => []
  | 0, s => s
  | fuel + 1, c :: cs =>
    if pat.isPrefixOf (c :: cs) ∧ pat ≠ [] then
      rep ++ replaceCharsFuel pat rep fuel (cs.drop (pat.length - 1))
    else c :: replaceCharsFuel pat rep fuel cs

def replaceChars (pat rep s : List Char) : List Char :=
  replaceCharsFuel pat rep s.length s

/-- Rust `str::replace` on strings (the patterns used in `calc_pem` are all
non-empty, so the empty-pattern case never arises). -/
def stringReplace (s pat rep : String) : String :=
  (replaceChars pat.toList rep.toList s.toList).asString

/-- Rust `char::is_whitespace` (the Unicode White_Space property). -/
def isRustWhitespace (c : Char) : Bool :=
  ([9, 10, 11, 12, 13, 32, 0x85, 0xA0, 0x1680,
    0x2000, 0x2001, 0x2002, 0x2003, 0x2004, 0x2005, 0x2006, 0x2007,
    0x2008, 0x2009, 0x200A, 0x2028, 0x2029, 0x202F, 0x205F, 0x3000] : List Nat).contains
    c.toNat

/-- Rust `str::trim`: drop leading and trailing whitespace. -/
def trimChars (l : List Char) : List Char :=
  ((l.dropWhile isRustWhitespace).reverse.dropWhile isRustWhitespace).reverse

/-- Rust `str::trim` on strings. -/
def stringTrim (s : String) : String :=
  (trimChars s.toList).asString

/-- `Header::calc_pem`: re-encode the certificate to PEM (the OpenSSL
`X509::from_pem(..)?.to_pem()?` composite together with `String::from_utf8`
is the oracle argument `parseX509`), then strip the armor lines and all
newlines and trim.  The string surgery is the repository's own code and is
modelled exactly. -/
def Header.calc_pem (parseX509 : Except String String) : Except String String :=
  match parseX509 with
  | .error e => .error e
  | .ok pem =>
      .ok (stringTrim (stringReplace (stringReplace (stringReplace pem
        "-----BEGIN CERTIFICATE-----" "") "-----END CERTIFICATE-----" "") "\n" ""))

/-- `Header::calc_x5t`: base64-decode the normalized certificate body,
hash it with SHA-1 (oracle `sha1`), and base64-encode the digest with the
standard alphabet. -/
def Header.calc_x5t (sha1 : List Nat → List Nat) (public_key_pem : String) :
    Except String String :=
  match base64Decode public_key_pem.toList with
  | none => .error "base64 decode error"
  | some data => .ok (base64Encode (sha1 data)).asString

/-- `Header::new`: normalize the certificate, compute the thumbprint, and
build the header with `alg = "RS256"` and a singleton `x5c` (the two `?`
sites are the two matches). -/
def Header.new (parseX509 : Except String String) (sha1 : List Nat → List Nat) :
    Except String Header :=
  match Header.calc_pem parseX509 with
  | .error e => .error e
  | .ok cert_pem =>
      match Header.calc_x5t sha1 cert_pem with
      | .error e => .error e
      | .ok x5t => .ok { alg := "RS256", x5t := x5t, x5c := [cert_pem] }

/-- Outcome of running code that may panic (Rust `unwrap`). -/
inductive PanicOr (α : Type) where
  | panic (msg : String)
  | ret (a : α)
  deriving Repr, DecidableEq

/-- `SystemTime::now().duration_since(UNIX_EPOCH)`: fails exactly when the
clock (seconds relative to the epoch) is before the epoch. -/
def durationSinceEpoch (clock : Int) : Except String Nat :=
  if clock < 0 then .error "SystemTimeError" else .ok clock.toNat

/-- `Payload::new`: reads the clock with an unchecked `unwrap` (modelled as a
`PanicOr`), sets `nbf` to the current whole seconds, `exp` to `nbf + 600`
(u64 addition), `iss` and `sub` to the client id, `aud` to the endpoint URL,
and `jti` to the freshly generated UUID (oracle `jti`). -/
def Payload.new (tenant_id client_id : String) (clock : Int) (jti : String) :
    PanicOr Payload :=
  match durationSinceEpoch clock with
  | .error e => .panic ("called Result::unwrap on an Err value: " ++ e)
  | .ok issued_at =>
      .ret { iss := client_id, aud := MsalCert.aud tenant_id, sub := client_id,
             nbf := issued_at, exp := (issued_at + 600) % 2 ^ 64, jti := jti }

/-- `serde_json::json!(header).to_string()`: compact JSON with the object
keys in sorted order (serde_json's `Value` stores objects in a `BTreeMap`). -/
def headerJsonChars (hd : Header) : List Char :=
  '{' :: ("\"alg\":".toList ++ jsonStringChars hd.alg
    ++ ",\"x5c\":[".toList ++ jsonStringListChars hd.x5c
    ++ "],\"x5t\":".toList ++ jsonStringChars hd.x5t ++ ['}'])

/-- `serde_json::json!(payload).to_string()`: compact JSON, keys sorted. -/
def payloadJsonChars (pl : Payload) : List Char :=
  '{' :: ("\"aud\":".toList ++ jsonStringChars pl.aud
    ++ ",\"exp\":".toList ++ (toString pl.exp).toList
    ++ ",\"iss\":".toList ++ jsonStringChars pl.iss
    ++ ",\"jti\":".toList ++ jsonStringChars pl.jti
    ++ ",\"nbf\":".toList ++ (toString pl.nbf).toList
    ++ ",\"sub\":".toList ++ jsonStringChars pl.sub ++ ['}'])

/-- `BASE64_STANDARD.encode(header_json.to_string())` in `acquire_token`. -/
def headerB64 (hd : Header) : String :=
  (base64Encode (utf8Chars (headerJsonChars hd))).asString

/-- `BASE64_STANDARD.encode(payload_json.to_string())` in `acquire_token`. -/
def payloadB64 (pl : Payload) : String :=
  (base64Encode (utf8Chars (payloadJsonChars pl))).asString

/-- One HTTP POST request as assembled by `acquire_token`: the endpoint URL
and the form fields in insertion order. -/
structure Request where
  url : String
  params : List (String × String)
  deriving Repr, DecidableEq

/-- The typed failure of a run, one constructor per fallible step of
`acquire_token` (each `?` site and the final decode). -/
inductive AcqError where
  | keyParse (e : String)
  | certParse (e : String)
  | transport (e : String)
  | decode (e : String)
  deriving Repr, DecidableEq

/-- The external collaborators of one `acquire_token` call:
`parseKey` is `PKey::private_key_from_pem`, `parseX509` is
`X509::from_pem(..)?.to_pem()?` with `String::from_utf8`, `sha1` the OpenSSL
digest, `clock` the system time in seconds relative to the UNIX epoch,
`jti` the freshly generated UUID, `sign` the `jwt` crate's
`PKeyWithDigest::sign` signature bytes over the two encoded segments,
`transport` the reqwest POST plus body-text read, and `parseResponse` is
`serde_json::from_str::<AccessTokenResponse>`. -/
structure Oracles where
  parseKey : Except String Unit
  parseX509 : Except String String
  sha1 : List Nat → List Nat
  clock : Int
  jti : String
  sign : String → String → Except String (List Nat)
  transport : Request → Except String String
  parseResponse : String → Except String AccessTokenResponse

/-- The five form fields inserted into the request body by `acquire_token`,
in insertion order. -/
def tokenParams (scope client_id client_assertion : String) : List (String × String) :=
  [("client_assertion_type", "urn:ietf:params:oauth:client-assertion-type:jwt-bearer"),
   ("grant_type", "client_credentials"),
   ("scope", "openid profile offline_access " ++ scope),
   ("client_assertion", client_assertion),
   ("client_id", client_id)]

deriving instance DecidableEq for Except

/-- Observable outcome of one `acquire_token` call: the returned value (or a
panic), the network requests issued, and the lines printed to stdout. -/
structure RunResult where
  result : PanicOr (Except AcqError AccessTokenResponse)
  requests : List Request
  log : List String
  deriving Repr, DecidableEq

/-- `acquire_token` from `src/lib.rs`, step for step: parse the private key
(`?`), build the header (`?`), build the payload (panics if the clock is
before the epoch), standard-base64-encode the header and payload JSON, sign
with an unchecked `unwrap`, assemble the compact assertion and the five form
fields, POST to `aud(tenant_id)`, read the body text (`?`), and parse it,
printing the parse error together with the raw body on decode failure. -/
def acquire_token (tenant_id client_id scope : String) (o : Oracles) : RunResult :=
  match o.parseKey with
  | .error e => ⟨.ret (.error (.keyParse e)), [], []⟩
  | .ok _ =>
  match Header.new o.parseX509 o.sha1 with
  | .error e => ⟨.ret (.error (.certParse e)), [], []⟩
  | .ok header =>
  match Payload.new tenant_id client_id o.clock o.jti with
  | .panic m => ⟨.panic m, [], []⟩
  | .ret payload =>
  let header_base64 := headerB64 header
  let payload_base64 := payloadB64 payload
  match o.sign header_base64 payload_base64 with
  | .error e => .mk (.panic ("called Result::unwrap on an Err value: " ++ e)) [] []
  | .ok sigBytes =>
  let client_assertion :=
    header_base64 ++ "." ++ payload_base64 ++ "." ++ (base64UrlEncode sigBytes).asString
  let req : Request := ⟨aud tenant_id, tokenParams scope client_id client_assertion⟩
  match o.transport req with
  | .error e => ⟨.ret (.error (.transport e)), [req], []⟩
  | .ok body_text =>
  match o.parseResponse body_text with
  | .ok token_response => ⟨.ret (.ok token_response), [req], []⟩
  | .error e =>
      ⟨.ret (.error (.decode e)), [req],
       ["Error while parsing JSON: " ++ e ++ ". Response text: " ++ body_text]⟩

/-- Whether a string uses only the URL-safe base64 alphabet (what the claim
of base64url segments asserts; `=` and the `+` and `/` of the standard
alphabet are not in it). -/
def isBase64UrlStr (s : String) : Bool :=
  s.toList.all (fun c => b64UrlTable.contains c)

/-- Whether a run ended in the certificate-error constructor. -/
def resultIsCertError : RunResult → Bool
  | ⟨.ret (.error (.certParse _)), _, _⟩ => true
  | _ => false

theorem getD_mem {l : List Char} (n : Nat) {d : Char} (hd : d ∈ l) : l.getD n d ∈ l := by
  rcases h : l[n]? with _ | c
  · simp [List.getD, h, hd]
  · have hm := List.getElem?_mem h
    simp [List.getD, h, hm]

theorem b64Char_mem (n : Nat) : b64Char n ∈ b64Table :=
  getD_mem n (by decide)

theorem b64UrlChar_mem (n : Nat) : b64UrlChar n ∈ b64UrlTable :=
  getD_mem n (by decide)

theorem b64Char_ne_dot (n : Nat) : b64Char n ≠ '.' := by
  have h := b64Char_mem n
  have hall : ∀ c ∈ b64Table, c ≠ '.' := by decide
  exact hall _ h

theorem b64UrlChar_ne_dot (n : Nat) : b64UrlChar n ≠ '.' := by
  have h := b64UrlChar_mem n
  have hall : ∀ c ∈ b64UrlTable, c ≠ '.' := by decide
  exact hall _ h

theorem mem_base64Encode_ne_dot (bs : List Nat) : ∀ c ∈ base64Encode bs, c ≠ '.' := by
  induction bs using base64Encode.induct with
  | case1 => intro c hc; simp [base64Encode] at hc
  | case2 a =>
      intro c hc
      simp only [base64Encode, List.mem_cons, List.not_mem_nil, or_false] at hc
      rcases hc with rfl | rfl | rfl | rfl
      · exact b64Char_ne_dot _
      · exact b64Char_ne_dot _
      · decide
      · decide
  | case3 a b =>
      intro c hc
      simp only [base64Encode, List.mem_cons, List.not_mem_nil, or_false] at hc
      rcases hc with rfl | rfl | rfl | rfl
      · exact b64Char_ne_dot _
      · exact b64Char_ne_dot _
      · exact b64Char_ne_dot _
      · decide
  | case4 a b c rest ih =>
      intro d hd
      simp only [base64Encode, List.mem_cons] at hd
      rcases hd with rfl | rfl | rfl | rfl | hd
      · exact b64Char_ne_dot _
      · exact b64Char_ne_dot _
      · exact b64Char_ne_dot _
      · exact b64Char_ne_dot _
      · exact ih d hd

theorem mem_base64UrlEncode_ne_dot (bs : List Nat) : ∀ c ∈ base64UrlEncode bs, c ≠ '.' := by
  induction bs using base64UrlEncode.induct with
  | case1 => intro c hc; simp [base64UrlEncode] at hc
  | case2 a =>
      intro c hc
      simp only [base64UrlEncode, List.mem_cons, List.not_mem_nil, or_false] at hc
      rcases hc with rfl | rfl
      · exact b64UrlChar_ne_dot _
      · exact b64UrlChar_ne_dot _
  | case3 a b =>
      intro c hc
      simp only [base64UrlEncode, List.mem_cons, List.not_mem_nil, or_false] at hc
      rcases hc with rfl | rfl | rfl
      · exact b64UrlChar_ne_dot _
      · exact b64UrlChar_ne_dot _
      · exact b64UrlChar_ne_dot _
  | case4 a b c rest ih =>
      intro d hd
      simp only [base64UrlEncode, List.mem_cons] at hd
      rcases hd with rfl | rfl | rfl | rfl | hd
      · exact b64UrlChar_ne_dot _
      · exact b64UrlChar_ne_dot _
      · exact b64UrlChar_ne_dot _
      · exact b64UrlChar_ne_dot _
      · exact ih d hd

theorem base64Encode_ne_nil {bs : List Nat} (h : bs ≠ []) : base64Encode bs ≠ [] := by
  match bs with
  | [] => exact absurd rfl h
  | [a] => simp [base64Encode]
  | [a, b] => simp [base64Encode]
  | a :: b :: c :: r => simp [base64Encode]

theorem base64UrlEncode_ne_nil {bs : List Nat} (h : bs ≠ []) : base64UrlEncode bs ≠ [] := by
  match bs with
  | [] => exact absurd rfl h
  | [a] => simp [base64UrlEncode]
  | [a, b] => simp [base64UrlEncode]
  | a :: b :: c :: r => simp [base64UrlEncode]

theorem utf8Chars_brace_cons (rest : List Char) :
    ∃ tl, utf8Chars ('{' :: rest) = 123 :: tl := by
  refine ⟨utf8Chars rest, ?_⟩
  show utf8EncodeChar '{' ++ utf8Chars rest = 123 :: utf8Chars rest
  rfl

theorem headerB64_ne_empty (hd : Header) : headerB64 hd ≠ "" := by
  unfold headerB64
  rw [Ne, List.asString_eq, String.toList_empty]
  apply base64Encode_ne_nil
  obtain ⟨tl, htl⟩ := utf8Chars_brace_cons
    ("\"alg\":".toList ++ jsonStringChars hd.alg
      ++ ",\"x5c\":[".toList ++ jsonStringListChars hd.x5c
      ++ "],\"x5t\":".toList ++ jsonStringChars hd.x5t ++ ['}'])
  rw [headerJsonChars, htl]
  simp

theorem payloadB64_ne_empty (pl : Payload) : payloadB64 pl ≠ "" := by
  unfold payloadB64
  rw [Ne, List.asString_eq, String.toList_empty]
  apply base64Encode_ne_nil
  obtain ⟨tl, htl⟩ := utf8Chars_brace_cons
    ("\"aud\":".toList ++ jsonStringChars pl.aud
      ++ ",\"exp\":".toList ++ (toString pl.exp).toList
      ++ ",\"iss\":".toList ++ jsonStringChars pl.iss
      ++ ",\"jti\":".toList ++ jsonStringChars pl.jti
      ++ ",\"nbf\":".toList ++ (toString pl.nbf).toList
      ++ ",\"sub\":".toList ++ jsonStringChars pl.sub ++ ['}'])
  rw [payloadJsonChars, htl]
  simp

theorem dot_not_mem_headerB64 (hd : Header) : '.' ∉ (headerB64 hd).toList := by
  unfold headerB64
  rw [List.toList_asString]
  intro hmem
  exact mem_base64Encode_ne_dot _ _ hmem rfl

theorem dot_not_mem_payloadB64 (pl : Payload) : '.' ∉ (payloadB64 pl).toList := by
  unfold payloadB64
  rw [List.toList_asString]
  intro hmem
  exact mem_base64Encode_ne_dot _ _ hmem rfl

theorem payload_new_ret_aud {tid cid : String} {clock : Int} {jti : String} {pl : Payload}
    (h : Payload.new tid cid clock jti = .ret pl) : pl.aud = aud tid := by
  unfold Payload.new at h
  split at h
  · simp at h
  · cases h
    rfl

/-- A concrete re-encoded certificate PEM, used by the concrete runs below. -/
def pemC : String := "-----BEGIN CERTIFICATE-----\nAAAA\n-----END CERTIFICATE-----\n"

/-- The header that `Header.new` computes from `pemC` with the concrete
`sha1` oracle below (the body decodes to `[0,0,0]`, whose mock digest is
`[1,2,3]`, base64 `"AQID"`). -/
def hdC : Header := { x5t := "AQID", alg := "RS256", x5c := ["AAAA"] }

/-- The payload built at clock 0 for tenant `"t"`, client `"c"`, jti `"j"`. -/
def plC : Payload :=
  { iss := "c", aud := aud "t", sub := "c", nbf := 0, exp := 600, jti := "j" }

/-- A concrete, fully successful set of oracles up to response parsing
(the response body does not parse, exercising the decode-failure path). -/
def oBase : Oracles where
  parseKey := .ok ()
  parseX509 := .ok pemC
  sha1 := fun _ => [1, 2, 3]
  clock := 0
  jti := "j"
  sign := fun _ _ => .ok [1]
  transport := fun _ => .ok "not json"
  parseResponse := fun _ => .error "expected value at line 1 column 1"

/-- The request that `acquire_token "t" "c" "s" oBase` issues. -/
def reqC : Request :=
  ⟨aud "t", tokenParams "s" "c"
    (headerB64 hdC ++ "." ++ payloadB64 plC ++ "." ++ (base64UrlEncode [1]).asString)⟩

/-- C7: for all (tenant_id, client_id) pairs, the constructed payload
satisfies `exp - nbf = 600` (hence `exp > nbf`), with `iss` and `sub` both
equal to the client id.  The hypothesis excludes u64 wrap-around of
`nbf + 600`, which no physical clock value reaches. -/
theorem C7_payload_validity_window (tid cid jti : String) (clock : Int) (pl : Payload)
    (h : Payload.new tid cid clock jti = .ret pl)
    (hb : clock.toNat + 600 < 2 ^ 64) :
    pl.exp - pl.nbf = 600 ∧ pl.nbf < pl.exp ∧ pl.iss = cid ∧ pl.sub = cid := by
  unfold Payload.new at h
  split at h
  · simp at h
  · cases h
    rename_i issued heq
    unfold durationSinceEpoch at heq
    split at heq
    · exact absurd heq (by simp)
    · cases heq
      refine ⟨?_, ?_, rfl, rfl⟩
      · dsimp only
        rw [Nat.mod_eq_of_lt hb]
        omega
      · dsimp only
        rw [Nat.mod_eq_of_lt hb]
        omega

/-- C7 witness at tenant `"t"`, client `"c"`, clock 0, jti `"j"`. -/
theorem C7_witness :
    plC.exp - plC.nbf = 600 ∧ plC.nbf < plC.exp ∧ plC.iss = "c" ∧ plC.sub = "c" :=
  C7_payload_validity_window "t" "c" "j" 0 plC (by rfl) (by decide)

/-- C8: every header built by `Header::new` has `alg = "RS256"`, an `x5c`
with exactly one entry, and an `x5t` equal to the standard-base64 encoding of
the SHA-1 digest of the DER bytes obtained by base64-decoding that single
`x5c` entry. -/
theorem C8_header_thumbprint (px : Except String String) (sha1f : List Nat → List Nat)
    (hd : Header) (h : Header.new px sha1f = .ok hd) :
    hd.alg = "RS256" ∧ ∃ cert der, hd.x5c = [cert] ∧
      base64Decode cert.toList = some der ∧
      hd.x5t = (base64Encode (sha1f der)).asString := by
  unfold Header.new at h
  split at h
  · simp at h
  · rename_i cert_pem heq
    split at h
    · simp at h
    · rename_i x5tv hx
      cases h
      unfold Header.calc_x5t at hx
      split at hx
      · simp at hx
      · rename_i der hder
        cases hx
        exact ⟨rfl, cert_pem, der, rfl, hder, rfl⟩

/-- C8 witness on the concrete certificate `pemC`. -/
theorem C8_witness :
    hdC.alg = "RS256" ∧ ∃ cert der, hdC.x5c = [cert] ∧
      base64Decode cert.toList = some der ∧
      hdC.x5t = (base64Encode ((fun _ => [1, 2, 3]) der)).asString :=
  C8_header_thumbprint (.ok pemC) (fun _ => [1, 2, 3]) hdC (by rfl)

/-- C10: `Payload::new` reads the clock with an unchecked `unwrap`, so it
panics exactly when the clock is before the UNIX epoch, returns a payload
whenever the clock is at or after the epoch, and `acquire_token` therefore
also panics in that situation once key and certificate parsing succeed. -/
theorem C10_clock_unwrap_panics (tid cid scope : String) (o : Oracles) :
    (o.clock < 0 →
      Payload.new tid cid o.clock o.jti =
        .panic "called Result::unwrap on an Err value: SystemTimeError") ∧
    (0 ≤ o.clock → ∃ pl, Payload.new tid cid o.clock o.jti = .ret pl) ∧
    (o.clock < 0 → o.parseKey = .ok () →
      (∀ hd, Header.new o.parseX509 o.sha1 = .ok hd →
        (acquire_token tid cid scope o).result =
          .panic "called Result::unwrap on an Err value: SystemTimeError")) := by
  refine ⟨?_, ?_, ?_⟩
  · intro hneg
    unfold Payload.new durationSinceEpoch
    rw [if_pos hneg]
    rfl
  · intro hpos
    unfold Payload.new durationSinceEpoch
    rw [if_neg (by omega)]
    exact ⟨_, rfl⟩
  · intro hneg hk hd hh
    simp [acquire_token, hk, hh, Payload.new, durationSinceEpoch, hneg]

/-- C10 witness: at clock `-1` the payload constructor panics. -/
theorem C10_witness :
    Payload.new "t" "c" (-1) "j" =
      .panic "called Result::unwrap on an Err value: SystemTimeError" :=
  (C10_clock_unwrap_panics "t" "c" "s"
      { oBase with clock := -1 }).1 (by decide)

/-- Oracles whose signing primitive fails (for instance a key incompatible
with RSA signing). -/
def oC3 : Oracles := { oBase with sign := fun _ _ => .error "rsa signing failed" }

/-- C3: `acquire_token` calls `.unwrap()` on the signing result, so a failure
of the RSA/SHA-256 signing step makes the whole call panic instead of
returning an error value: the run below reaches the signing step with a
well-formed key and certificate and ends in a panic, with no error result and
no request issued. -/
theorem C3_signing_failure_panics :
    acquire_token "t" "c" "s" oC3 =
      ⟨.panic "called Result::unwrap on an Err value: rsa signing failed", [], []⟩ := by
  rfl

theorem acquire_token_requests_inv (tid cid scope : String) (o : Oracles) (r : Request)
    (h : r ∈ (acquire_token tid cid scope o).requests) :
    ∃ hd pl sig, Header.new o.parseX509 o.sha1 = .ok hd ∧
      Payload.new tid cid o.clock o.jti = .ret pl ∧
      o.sign (headerB64 hd) (payloadB64 pl) = .ok sig ∧
      r = ⟨aud tid, tokenParams scope cid
        (headerB64 hd ++ "." ++ payloadB64 pl ++ "." ++ (base64UrlEncode sig).asString)⟩ := by
  simp only [acquire_token] at h
  split at h
  · simp at h
  · split at h
    · simp at h
    · rename_i header hh
      split at h
      · simp at h
      · rename_i payload hp
        split at h
        · simp at h
        · rename_i sigBytes hs
          refine ⟨header, payload, sigBytes, hh, hp, hs, ?_⟩
          split at h
          · simp only [List.mem_singleton] at h
            exact h
          · split at h
            · simp only [List.mem_singleton] at h
              exact h
            · simp only [List.mem_singleton] at h
              exact h

/-- Oracles with both a malformed private key and a malformed certificate:
the private key is parsed first, so the returned error is the key-parse
error, not a certificate error. -/
def oC4 : Oracles :=
  { oBase with parseKey := .error "bad key", parseX509 := .error "bad cert" }

/-- C4 counterexample: on an input whose certificate bytes are malformed but
whose private key bytes are also malformed, `acquire_token` returns the
key-parse error, not a certificate error (though still with no request
issued). -/
theorem C4_counterexample :
    oC4.parseX509 = Except.error "bad cert" ∧
    resultIsCertError (acquire_token "t" "c" "s" oC4) = false ∧
    (acquire_token "t" "c" "s" oC4).result = .ret (.error (.keyParse "bad key")) ∧
    (acquire_token "t" "c" "s" oC4).requests = [] :=
  ⟨rfl, rfl, rfl, rfl⟩

/-- C4 amended: whenever the certificate bytes are malformed no network
request is issued, and if additionally the private key parses (the key is
parsed first), the result is the certificate error. -/
theorem C4_cert_error_before_network (tid cid scope : String) (o : Oracles) (e : String)
    (hx : o.parseX509 = .error e) :
    (acquire_token tid cid scope o).requests = [] ∧
    (o.parseKey = .ok () →
      (acquire_token tid cid scope o).result = .ret (.error (.certParse e))) := by
  have hne : Header.new o.parseX509 o.sha1 = .error e := by
    rw [hx]
    rfl
  constructor
  · cases hk : o.parseKey with
    | error ke => simp [acquire_token, hk]
    | ok u => simp [acquire_token, hk, hne]
  · intro hk
    simp [acquire_token, hk, hne]

/-- Oracles with a well-formed private key and a malformed certificate. -/
def oC4w : Oracles := { oBase with parseX509 := .error "bad cert" }

/-- C4 witness: malformed certificate, well-formed key. -/
theorem C4_witness :
    (acquire_token "t" "c" "s" oC4w).requests = [] ∧
    (oC4w.parseKey = .ok () →
      (acquire_token "t" "c" "s" oC4w).result = .ret (.error (.certParse "bad cert"))) :=
  C4_cert_error_before_network "t" "c" "s" oC4w "bad cert" rfl

/-- C5: every request `acquire_token` issues goes to
`https://login.microsoftonline.com/{tenant_id}/oauth2/v2.0/token`, and the
`aud` claim of the payload constructed in the same call equals that URL. -/
theorem C5_aud_binds_endpoint (tid cid scope : String) (o : Oracles) (r : Request)
    (h : r ∈ (acquire_token tid cid scope o).requests) :
    r.url = "https://login.microsoftonline.com/" ++ tid ++ "/oauth2/v2.0/token" ∧
    ∀ pl, Payload.new tid cid o.clock o.jti = .ret pl → pl.aud = r.url := by
  obtain ⟨hd, pl, sig, hh, hp, hs, rfl⟩ := acquire_token_requests_inv tid cid scope o r h
  constructor
  · rfl
  · intro pl2 hp2
    rw [payload_new_ret_aud hp2]

/-- C5 witness on the concrete successful run. -/
theorem C5_witness :
    reqC.url = "https://login.microsoftonline.com/" ++ "t" ++ "/oauth2/v2.0/token" ∧
    ∀ pl, Payload.new "t" "c" oBase.clock oBase.jti = .ret pl → pl.aud = reqC.url :=
  C5_aud_binds_endpoint "t" "c" "s" oBase reqC (by
    have hr : (acquire_token "t" "c" "s" oBase).requests = [reqC] := rfl
    rw [hr]
    exact List.mem_singleton.mpr rfl)

/-- C6: the form body of every issued request consists of exactly the five
fields, in insertion order: the JWT-bearer URN, `client_credentials`, the
scope with the fixed `openid profile offline_access ` prepended, the compact
client assertion built in the same call, and the caller's client id. -/
theorem C6_form_fields (tid cid scope : String) (o : Oracles) (r : Request)
    (h : r ∈ (acquire_token tid cid scope o).requests) :
    ∃ hd pl sig, Header.new o.parseX509 o.sha1 = .ok hd ∧
      Payload.new tid cid o.clock o.jti = .ret pl ∧
      o.sign (headerB64 hd) (payloadB64 pl) = .ok sig ∧
      r.params =
        [("client_assertion_type", "urn:ietf:params:oauth:client-assertion-type:jwt-bearer"),
         ("grant_type", "client_credentials"),
         ("scope", "openid profile offline_access " ++ scope),
         ("client_assertion",
           headerB64 hd ++ "." ++ payloadB64 pl ++ "." ++ (base64UrlEncode sig).asString),
         ("client_id", cid)] := by
  obtain ⟨hd, pl, sig, hh, hp, hs, rfl⟩ := acquire_token_requests_inv tid cid scope o r h
  exact ⟨hd, pl, sig, hh, hp, hs, rfl⟩

/-- C6 witness on the concrete successful run. -/
theorem C6_witness :
    ∃ hd pl sig, Header.new oBase.parseX509 oBase.sha1 = .ok hd ∧
      Payload.new "t" "c" oBase.clock oBase.jti = .ret pl ∧
      oBase.sign (headerB64 hd) (payloadB64 pl) = .ok sig ∧
      reqC.params =
        [("client_assertion_type", "urn:ietf:params:oauth:client-assertion-type:jwt-bearer"),
         ("grant_type", "client_credentials"),
         ("scope", "openid profile offline_access " ++ "s"),
         ("client_assertion",
           headerB64 hd ++ "." ++ payloadB64 pl ++ "." ++ (base64UrlEncode sig).asString),
         ("client_id", "c")] :=
  C6_form_fields "t" "c" "s" oBase reqC (by
    have hr : (acquire_token "t" "c" "s" oBase).requests = [reqC] := rfl
    rw [hr]
    exact List.mem_singleton.mpr rfl)

theorem count_dot_compact (a b c : String)
    (ha : '.' ∉ a.toList) (hb : '.' ∉ b.toList) (hc : '.' ∉ c.toList) :
    (a ++ "." ++ b ++ "." ++ c).toList.count '.' = 2 := by
  have ha0 : List.count '.' a.data = 0 := List.count_eq_zero.mpr ha
  have hb0 : List.count '.' b.data = 0 := List.count_eq_zero.mpr hb
  have hc0 : List.count '.' c.data = 0 := List.count_eq_zero.mpr hc
  have h1 : (a ++ "." ++ b ++ "." ++ c).toList
      = a.toList ++ ['.'] ++ b.toList ++ ['.'] ++ c.toList := rfl
  rw [h1]
  simp [List.count_append]
  omega

/-- C9: provided the external signer returns a non-empty signature (an RSA
signature always has the modulus size), the client assertion carried by every
issued request is three non-empty dot-free segments joined by two dots. -/
theorem C9_compact_three_segments (tid cid scope : String) (o : Oracles) (r : Request)
    (h : r ∈ (acquire_token tid cid scope o).requests)
    (hsig : ∀ x y sig, o.sign x y = .ok sig → sig ≠ []) :
    ∃ a b c, r.params =
        [("client_assertion_type", "urn:ietf:params:oauth:client-assertion-type:jwt-bearer"),
         ("grant_type", "client_credentials"),
         ("scope", "openid profile offline_access " ++ scope),
         ("client_assertion", a ++ "." ++ b ++ "." ++ c),
         ("client_id", cid)] ∧
      (a ++ "." ++ b ++ "." ++ c).toList.count '.' = 2 ∧
      a ≠ "" ∧ b ≠ "" ∧ c ≠ "" ∧
      '.' ∉ a.toList ∧ '.' ∉ b.toList ∧ '.' ∉ c.toList := by
  obtain ⟨hd, pl, sig, hh, hp, hs, rfl⟩ := acquire_token_requests_inv tid cid scope o r h
  have hsne : sig ≠ [] := hsig _ _ _ hs
  have hcdot : '.' ∉ ((base64UrlEncode sig).asString).toList := by
    rw [List.toList_asString]
    intro hmem
    exact mem_base64UrlEncode_ne_dot _ _ hmem rfl
  refine ⟨headerB64 hd, payloadB64 pl, (base64UrlEncode sig).asString, rfl,
    count_dot_compact _ _ _ (dot_not_mem_headerB64 hd) (dot_not_mem_payloadB64 pl) hcdot,
    headerB64_ne_empty hd, payloadB64_ne_empty pl, ?_,
    dot_not_mem_headerB64 hd, dot_not_mem_payloadB64 pl, hcdot⟩
  rw [Ne, List.asString_eq, String.toList_empty]
  exact base64UrlEncode_ne_nil hsne

/-- C9 witness on the concrete successful run. -/
theorem C9_witness :
    ∃ a b c, reqC.params =
        [("client_assertion_type", "urn:ietf:params:oauth:client-assertion-type:jwt-bearer"),
         ("grant_type", "client_credentials"),
         ("scope", "openid profile offline_access " ++ "s"),
         ("client_assertion", a ++ "." ++ b ++ "." ++ c),
         ("client_id", "c")] ∧
      (a ++ "." ++ b ++ "." ++ c).toList.count '.' = 2 ∧
      a ≠ "" ∧ b ≠ "" ∧ c ≠ "" ∧
      '.' ∉ a.toList ∧ '.' ∉ b.toList ∧ '.' ∉ c.toList :=
  C9_compact_three_segments "t" "c" "s" oBase reqC
    (by
      have hr : (acquire_token "t" "c" "s" oBase).requests = [reqC] := rfl
      rw [hr]
      exact List.mem_singleton.mpr rfl)
    (by
      intro x y sig hs
      cases hs
      simp)

/-- Oracles whose transport returns the unparseable body `"AAA"`. -/
def oC2a : Oracles := { oBase with transport := fun _ => .ok "AAA" }

/-- Oracles whose transport returns the unparseable body `"BBB"`. -/
def oC2b : Oracles := { oBase with transport := fun _ => .ok "BBB" }

/-- C2 counterexample: two runs whose unparseable response bodies differ
produce identical returned errors (the decode error carries only the parse
error), while their stdout logs differ — so the raw response text is only
logged, not carried to the caller in the error value. -/
theorem C2_counterexample :
    (acquire_token "t" "c" "s" oC2a).result = (acquire_token "t" "c" "s" oC2b).result ∧
    (acquire_token "t" "c" "s" oC2a).result =
      .ret (.error (.decode "expected value at line 1 column 1")) ∧
    oC2a.transport reqC ≠ oC2b.transport reqC ∧
    (acquire_token "t" "c" "s" oC2a).log ≠ (acquire_token "t" "c" "s" oC2b).log := by
  refine ⟨rfl, rfl, by decide, by decide⟩

/-- C2 amended: when the response body fails to parse, the caller receives
an error carrying the parse error only, while the parse error together with
the raw response text is printed to stdout. -/
theorem C2_decode_error_only_logged (tid cid scope : String) (o : Oracles)
    (hd : Header) (pl : Payload) (sig : List Nat) (body e : String)
    (hk : o.parseKey = .ok ()) (hh : Header.new o.parseX509 o.sha1 = .ok hd)
    (hp : Payload.new tid cid o.clock o.jti = .ret pl)
    (hs : o.sign (headerB64 hd) (payloadB64 pl) = .ok sig)
    (ht : o.transport ⟨aud tid, tokenParams scope cid
      (headerB64 hd ++ "." ++ payloadB64 pl ++ "." ++ (base64UrlEncode sig).asString)⟩
        = .ok body)
    (hr : o.parseResponse body = .error e) :
    (acquire_token tid cid scope o).result = .ret (.error (.decode e)) ∧
    (acquire_token tid cid scope o).log =
      ["Error while parsing JSON: " ++ e ++ ". Response text: " ++ body] := by
  constructor <;> simp [acquire_token, hk, hh, hp, hs, ht, hr]

/-- C2 witness on the concrete run with body `"AAA"`. -/
theorem C2_witness :
    (acquire_token "t" "c" "s" oC2a).result =
      .ret (.error (.decode "expected value at line 1 column 1")) ∧
    (acquire_token "t" "c" "s" oC2a).log =
      ["Error while parsing JSON: " ++ "expected value at line 1 column 1" ++
        ". Response text: " ++ "AAA"] :=
  C2_decode_error_only_logged "t" "c" "s" oC2a hdC plC [1] "AAA"
    "expected value at line 1 column 1" rfl rfl rfl rfl rfl rfl

/-- C1 counterexample: in the concrete successful run, the client assertion
put on the wire is built from `headerB64 hdC`, whose value contains the `=`
padding of standard base64 — a character outside the URL-safe base64
alphabet — so the header segment of the produced token is not base64url. -/
theorem C1_counterexample :
    isBase64UrlStr (headerB64 hdC) = false ∧
    (acquire_token "t" "c" "s" oBase).requests =
      [⟨aud "t", tokenParams "s" "c"
        (headerB64 hdC ++ "." ++ payloadB64 plC ++ "." ++ (base64UrlEncode [1]).asString)⟩] :=
  ⟨rfl, rfl⟩

/-- C1 amended: the header and payload segments of the compact token carried
by every issued request are the STANDARD base64 (RFC 4648, `+/` alphabet,
`=` padding) encodings of the header JSON and payload JSON, and the
signature segment is the URL-safe unpadded encoding of the signature bytes;
the segments are joined by single dots. -/
theorem C1_compact_serialization_standard_base64 (tid cid scope : String) (o : Oracles)
    (r : Request) (h : r ∈ (acquire_token tid cid scope o).requests) :
    ∃ hd pl sig, Header.new o.parseX509 o.sha1 = .ok hd ∧
      Payload.new tid cid o.clock o.jti = .ret pl ∧
      o.sign (headerB64 hd) (payloadB64 pl) = .ok sig ∧
      r.params.lookup "client_assertion" =
        some ((base64Encode (utf8Chars (headerJsonChars hd))).asString ++ "." ++
          (base64Encode (utf8Chars (payloadJsonChars pl))).asString ++ "." ++
          (base64UrlEncode sig).asString) := by
  obtain ⟨hd, pl, sig, hh, hp, hs, rfl⟩ := acquire_token_requests_inv tid cid scope o r h
  exact ⟨hd, pl, sig, hh, hp, hs, rfl⟩

/-- C1 witness on the concrete successful run. -/
theorem C1_witness :
    ∃ hd pl sig, Header.new oBase.parseX509 oBase.sha1 = .ok hd ∧
      Payload.new "t" "c" oBase.clock oBase.jti = .ret pl ∧
      oBase.sign (headerB64 hd) (payloadB64 pl) = .ok sig ∧
      reqC.params.lookup "client_assertion" =
        some ((base64Encode (utf8Chars (headerJsonChars hd))).asString ++ "." ++
          (base64Encode (utf8Chars (payloadJsonChars pl))).asString ++ "." ++
          (base64UrlEncode sig).asString) :=
  C1_compact_serialization_standard_base64 "t" "c" "s" oBase reqC (by
    have hr : (acquire_token "t" "c" "s" oBase).requests = [reqC] := rfl
    rw [hr]
    exact List.mem_singleton.mpr rfl)

end MsalCert
